import Mathlib

/-
Shallow embedding of `src/packages/client/src-tauri/src/main.rs` (the sole
source file of the commhub repository): a Tauri desktop-shell entry point
exposing one native command, `flash_taskbar`, plus a setup callback that opens
the devtools panel on the "main" window in debug builds, and a blocking run
loop whose failure aborts the process via `.expect(...)`.

The host framework (Tauri) is out of scope and is modelled abstractly: window
resolution, the attention-request primitive and the run loop are parameters.
Rust panics (from `unwrap` / `expect`) are modelled by the `fatal` branch of
the `Outcome` type; observable interactions with the host are recorded as an
`Effect` trace so that "exactly one call", "no logging", "no retry" and
"no fallback lookup" are statable.
-/

namespace Commhub

/-- An opaque reference to a host-owned window, identified by its label. -/
structure Window where
  label : String
deriving DecidableEq, Repr

/-- `tauri::UserAttentionType`: the attention level passed to
`request_user_attention`. -/
inductive UserAttentionType
  | Critical
  | Informational
deriving DecidableEq, Repr

/-- A host-API (`tauri::Error`) error value. `rendered` is its Display
rendering (what Rust `e.to_string()` produces); `debugged` is its Debug
rendering (what a Rust `.expect(msg)` panic message appends after `msg`). -/
structure TauriError where
  rendered : String
  debugged : String
deriving DecidableEq, Repr

/-- Rust `e.to_string()`: the human-readable (Display) rendering of a host
error. -/
def TauriError.to_string (e : TauriError) : String := e.rendered

/-- Observable interactions this component performs against the host runtime
(or locally, in the case of `log`: the source performs no logging, and the
traces produced by the embedded operations witness that). -/
inductive Effect
  | requestUserAttention (window : Window) (level : Option UserAttentionType)
  | getWindow (label : String)
  | openDevtools (window : Window)
  | log (message : String)
deriving DecidableEq, Repr

/-- The outcome of running a piece of Rust code: a normal return value, or a
process-terminating panic (Rust `unwrap` / `expect`) carrying its message. -/
inductive Outcome (α : Type)
  | ok (value : α)
  | fatal (message : String)
deriving DecidableEq, Repr

/-- The host runtime's attention-request primitive
(`Window::request_user_attention` in Tauri), supplied as an abstract
collaborator: for a window and an attention level it either succeeds or
returns a host-API error. -/
structure HostApi where
  request_user_attention : Window → Option UserAttentionType → Except TauriError Unit

/-- The sole `#[tauri::command]` of `main.rs` (lines 6-12):

```
fn flash_taskbar(window: Window) -> Result<(), String> {
    window.request_user_attention(Some(tauri::UserAttentionType::Informational))
        .map_err(|e| e.to_string())?;
    Ok(())
}
```

The result pairs the trace of host interactions with the outcome. The body
contains no panicking construct, so the outcome is always `Outcome.ok`; the
`?` operator propagates the stringified error, otherwise `Ok(())` is
returned. The `window` argument is injected by Tauri's invoke machinery, not
supplied by the front-end caller. -/
def flash_taskbar (window : Window) (host : HostApi) :
    List Effect × Outcome (Except String Unit) :=
  match host.request_user_attention window (some UserAttentionType.Informational) with
  | .error e =>
      ([Effect.requestUserAttention window (some UserAttentionType.Informational)],
        Outcome.ok (Except.error (TauriError.to_string e)))
  | .ok _ =>
      ([Effect.requestUserAttention window (some UserAttentionType.Informational)],
        Outcome.ok (Except.ok ()))

/-- The build configuration: `#[cfg(debug_assertions)]` selects the debug
branch at compile time. -/
inductive BuildConfig
  | debug
  | release
deriving DecidableEq, Repr

/-- The application handle passed to the setup callback (`_app`), able to
resolve windows by label (`get_window` returns `Option<Window>` in Tauri). -/
structure AppHandle where
  get_window : String → Option Window

/-- The setup callback of `main.rs` (lines 16-23):

```
.setup(|_app| {
    #[cfg(debug_assertions)]
    {
        let window = _app.get_window("main").unwrap();
        window.open_devtools();
    }
    Ok(())
})
```

In a debug build it resolves the window labelled "main", panicking
(`.unwrap()`) when the lookup yields `None` (Rust's actual panic message
wraps Option::unwrap() in backticks), and opens that window's devtools; in a
release build the block is compiled out entirely. The final `Ok(())` is the
only return expression. -/
def setup (cfg : BuildConfig) (app : AppHandle) :
    List Effect × Outcome (Except String Unit) :=
  match cfg with
  | BuildConfig.debug =>
      match app.get_window "main" with
      | none =>
          ([Effect.getWindow "main"],
            Outcome.fatal "called Option::unwrap() on a None value")
      | some window =>
          ([Effect.getWindow "main", Effect.openDevtools window],
            Outcome.ok (Except.ok ()))
  | BuildConfig.release => ([], Outcome.ok (Except.ok ()))

/-- One entry of the command-dispatch table generated by
`tauri::generate_handler!`: the command's name, the list of caller-supplied
argument names deserialized from the front-end payload (empty for
`flash_taskbar`, whose only parameter `window: Window` is a special
host-injected capability, not caller input), and the handler itself. -/
structure CommandEntry where
  name : String
  callerSuppliedArgs : List String
  handler : Window → HostApi → List Effect × Outcome (Except String Unit)

/-- `tauri::generate_handler![flash_taskbar]` (line 24): the dispatch table
registered with the host via `.invoke_handler(...)`. -/
def generate_handler : List CommandEntry :=
  [⟨"flash_taskbar", [], flash_taskbar⟩]

/-- The tail of `main` (lines 25-26):

```
.run(tauri::generate_context!())
    .expect("error while running tauri application");
```

`mainProgram` takes the result the host's blocking run loop reported (the run
loop is invoked exactly once; the embedding has no retry path) and yields the
effects `main` performs after the run loop returns (none) together with the
final outcome: normal exit on success, or a `.expect`-style panic whose
message prefixes the Debug rendering of the error with the descriptive
string. -/
def mainProgram (runResult : Except TauriError Unit) : List Effect × Outcome Unit :=
  match runResult with
  | .ok _ => ([], Outcome.ok ())
  | .error e =>
      ([], Outcome.fatal ("error while running tauri application: " ++ e.debugged))

/-- Repeated invocation of `flash_taskbar`: the list of the results of `n`
successive invocations against the same window and host. The component holds
no mutable state, so each invocation is the same pure function application. -/
def invoke_repeatedly (window : Window) (host : HostApi) :
    Nat → List (List Effect × Outcome (Except String Unit))
  | 0 => []
  | n + 1 => flash_taskbar window host :: invoke_repeatedly window host n

/-- Concrete instances used by witnesses. -/
def mainWindow : Window := ⟨"main"⟩

/-- A host on which the attention request always succeeds (a valid window). -/
def okHost : HostApi := ⟨fun _ _ => Except.ok ()⟩

/-- A host on which the attention request fails (e.g. the window was already
destroyed). -/
def failingHost : HostApi :=
  ⟨fun _ _ => Except.error ⟨"window not found", "Runtime(WindowNotFound)"⟩⟩

/-- An app handle that cannot resolve any window. -/
def emptyApp : AppHandle := ⟨fun _ => none⟩

/-- An app handle resolving exactly the window labelled "main". -/
def mainApp : AppHandle := ⟨fun l => if l = "main" then some mainWindow else none⟩

/-- C1: invoking `flash_taskbar` on a valid window (one on which the host's
attention request succeeds) issues exactly one `request_user_attention` call,
at the Informational level, against that window, and returns the success
result with no payload (`Ok(())`). -/
theorem flash_taskbar_success (window : Window) (host : HostApi)
    (h : host.request_user_attention window (some UserAttentionType.Informational) =
      Except.ok ()) :
    flash_taskbar window host =
      ([Effect.requestUserAttention window (some UserAttentionType.Informational)],
        Outcome.ok (Except.ok ())) := by
  simp [flash_taskbar, h]

/-- Witness for C1 at the concrete window "main" and the always-succeeding
host. -/
theorem flash_taskbar_success_witness :
    okHost.request_user_attention mainWindow (some UserAttentionType.Informational) =
      Except.ok () ∧
    flash_taskbar mainWindow okHost =
      ([Effect.requestUserAttention mainWindow (some UserAttentionType.Informational)],
        Outcome.ok (Except.ok ())) :=
  ⟨rfl, flash_taskbar_success mainWindow okHost rfl⟩

/-- C2: when the host attention request fails with error `e`, `flash_taskbar`
returns the failure result carrying exactly the human-readable rendering
`e.to_string()`, and its trace is the single host call: no log effect, no
second (retry) call, no other local handling. -/
theorem flash_taskbar_failure (window : Window) (host : HostApi) (e : TauriError)
    (h : host.request_user_attention window (some UserAttentionType.Informational) =
      Except.error e) :
    flash_taskbar window host =
      ([Effect.requestUserAttention window (some UserAttentionType.Informational)],
        Outcome.ok (Except.error (TauriError.to_string e))) ∧
    ∀ m, Effect.log m ∉ (flash_taskbar window host).1 := by
  refine ⟨by simp [flash_taskbar, h], ?_⟩
  intro m
  simp [flash_taskbar, h]

/-- Witness for C2 at the concrete window "main" and the failing host. -/
theorem flash_taskbar_failure_witness :
    failingHost.request_user_attention mainWindow (some UserAttentionType.Informational) =
      Except.error ⟨"window not found", "Runtime(WindowNotFound)"⟩ ∧
    flash_taskbar mainWindow failingHost =
      ([Effect.requestUserAttention mainWindow (some UserAttentionType.Informational)],
        Outcome.ok (Except.error "window not found")) :=
  ⟨rfl, (flash_taskbar_failure mainWindow failingHost
      ⟨"window not found", "Runtime(WindowNotFound)"⟩ rfl).1⟩

/-- C3: the dispatch table registered with the host contains exactly one
entry, named `flash_taskbar`; it takes no caller-supplied arguments (its
`Window` parameter is host-injected), and its handler is `flash_taskbar`,
whose result type is success-with-no-payload or a string error. No other
native command is exposed. -/
theorem generate_handler_surface :
    generate_handler.map CommandEntry.name = ["flash_taskbar"] ∧
    generate_handler.length = 1 ∧
    generate_handler.map CommandEntry.callerSuppliedArgs = [[]] ∧
    generate_handler.map CommandEntry.handler = [flash_taskbar] :=
  ⟨rfl, rfl, rfl, rfl⟩

/-- C4: in a debug build, when the app handle cannot resolve the window
named "main", setup panics (Rust `unwrap` on `None`) after exactly one
lookup of "main": no fallback lookup, no handled error path, no retry. -/
theorem setup_debug_missing_main_fatal (app : AppHandle)
    (h : app.get_window "main" = none) :
    setup BuildConfig.debug app =
      ([Effect.getWindow "main"],
        Outcome.fatal "called Option::unwrap() on a None value") := by
  simp [setup, h]

/-- Witness for C4 at the app handle that resolves no window. -/
theorem setup_debug_missing_main_fatal_witness :
    emptyApp.get_window "main" = none ∧
    setup BuildConfig.debug emptyApp =
      ([Effect.getWindow "main"],
        Outcome.fatal "called Option::unwrap() on a None value") :=
  ⟨rfl, setup_debug_missing_main_fatal emptyApp rfl⟩

/-- C5: whenever the setup callback runs to completion (returns normally
rather than panicking), in either build configuration, the value it returns
is the success result `Ok(())`. -/
theorem setup_completion_success (cfg : BuildConfig) (app : AppHandle)
    (t : List Effect) (r : Except String Unit)
    (h : setup cfg app = (t, Outcome.ok r)) : r = Except.ok () := by
  cases cfg with
  | debug =>
      cases hw : app.get_window "main" with
      | none => simp [setup, hw] at h
      | some w =>
          simp [setup, hw] at h
          exact h.2.symm
  | release =>
      simp [setup] at h
      exact h.2.symm

/-- Witness for C5 at the release configuration. -/
theorem setup_completion_success_witness :
    setup BuildConfig.release emptyApp = ([], Outcome.ok (Except.ok ())) ∧
    (Except.ok () : Except String Unit) = Except.ok () :=
  ⟨rfl, setup_completion_success BuildConfig.release emptyApp [] (Except.ok ()) rfl⟩

/-- C6: if the host run loop reports a failure, `main` terminates the process
abnormally with the descriptive message of its `.expect` call followed by the
error, performs no further effect (in particular dispatches no command after
the failure), and never reaches a normal exit; the run loop is invoked once,
with no retry. -/
theorem run_failure_terminates (e : TauriError) :
    mainProgram (Except.error e) =
      ([], Outcome.fatal ("error while running tauri application: " ++ e.debugged)) ∧
    ∀ u, (mainProgram (Except.error e)).2 ≠ Outcome.ok u := by
  refine ⟨rfl, ?_⟩
  intro u
  simp [mainProgram]

/-- C7: the setup side effect is confined to debug builds: under the debug
configuration it opens the devtools panel on the window resolved under the
name "main", while under the release configuration, for every app handle, it
performs no effect at all and succeeds; the branch is selected by the
`BuildConfig` value fixed at build time, not by any runtime input. -/
theorem setup_devtools_build_branch (app : AppHandle) (w : Window)
    (h : app.get_window "main" = some w) :
    (setup BuildConfig.debug app).1 =
      [Effect.getWindow "main", Effect.openDevtools w] ∧
    ∀ anyApp : AppHandle,
      setup BuildConfig.release anyApp = ([], Outcome.ok (Except.ok ())) := by
  refine ⟨by simp [setup, h], ?_⟩
  intro anyApp
  simp [setup]

/-- Witness for C7 at the app handle resolving "main" to the main window. -/
theorem setup_devtools_build_branch_witness :
    mainApp.get_window "main" = some mainWindow ∧
    (setup BuildConfig.debug mainApp).1 =
      [Effect.getWindow "main", Effect.openDevtools mainWindow] :=
  ⟨rfl, (setup_devtools_build_branch mainApp mainWindow rfl).1⟩

/-- C8: `flash_taskbar` is stateless and idempotent from this component's
side: while the window stays valid (the host call succeeds), any number `n`
of repeated invocations yields `n` identical results, each the independent
success `Ok(())` with the single attention call — no result depends on the
count or ordering of prior invocations, and the component owns no state to
mutate. -/
theorem flash_taskbar_stateless_idempotent (window : Window) (host : HostApi)
    (n : Nat)
    (h : host.request_user_attention window (some UserAttentionType.Informational) =
      Except.ok ()) :
    invoke_repeatedly window host n =
      List.replicate n
        ([Effect.requestUserAttention window (some UserAttentionType.Informational)],
          Outcome.ok (Except.ok ())) := by
  induction n with
  | zero => rfl
  | succ k ih =>
      simp only [invoke_repeatedly, ih, List.replicate_succ, List.cons.injEq,
        and_true]
      simp [flash_taskbar, h]

/-- Witness for C8: two successive invocations against the valid main window
each return success. -/
theorem flash_taskbar_stateless_idempotent_witness :
    okHost.request_user_attention mainWindow (some UserAttentionType.Informational) =
      Except.ok () ∧
    invoke_repeatedly mainWindow okHost 2 =
      List.replicate 2
        ([Effect.requestUserAttention mainWindow (some UserAttentionType.Informational)],
          Outcome.ok (Except.ok ())) :=
  ⟨rfl, flash_taskbar_stateless_idempotent mainWindow okHost 2 rfl⟩

/-- C9: `flash_taskbar` is total and never panics: for every window and every
outcome of the single host attention call, it returns normally, with either
the success value or the error branch carrying the host error's string
rendering. -/
theorem flash_taskbar_total (window : Window) (host : HostApi) :
    (flash_taskbar window host).2 = Outcome.ok (Except.ok ()) ∨
    ∃ e : TauriError,
      host.request_user_attention window (some UserAttentionType.Informational) =
        Except.error e ∧
      (flash_taskbar window host).2 =
        Outcome.ok (Except.error (TauriError.to_string e)) := by
  cases hr : host.request_user_attention window (some UserAttentionType.Informational) with
  | ok u =>
      left
      cases u
      simp [flash_taskbar, hr]
  | error e =>
      right
      exact ⟨e, rfl, by simp [flash_taskbar, hr]⟩

/-- C10: the setup callback never returns an error value in any build
configuration: every run either panics (the debug-build unwrap on a missing
"main" window) or returns the success result — the error branch of its
result type is unreachable. -/
theorem setup_error_branch_unreachable (cfg : BuildConfig) (app : AppHandle) :
    (setup cfg app).2 = Outcome.fatal "called Option::unwrap() on a None value" ∨
    (setup cfg app).2 = Outcome.ok (Except.ok ()) := by
  cases cfg with
  | debug =>
      cases hw : app.get_window "main" with
      | none => left; simp [setup, hw]
      | some w => right; simp [setup, hw]
  | release => right; simp [setup]

end Commhub
